import Mathlib

/-!
Shallow embedding of the rentopia client core:
the session/identity state machine of `context/AuthContext.js` (the
`AuthProvider` component: the `onAuthStateChanged` listener callback and the
`login` / `register` / `logout` commands), and the data-access /
subscription layer of `services/firestoreService.js`.

Modelling conventions:
* React state setters (`setUser`, `setIsAuthenticated`, ...) are atomic
  updates of an `AppState` record; each update is one observable point.
* The code is single-threaded and event-driven; an `async` function is a
  sequence of atomic segments separated at `await` points, and distinct
  callback invocations may interleave at those points.  A sequential run of
  one operation is the concatenation of its segments.
* The external collaborators are modelled from their contracts: the
  IdentityProvider session is the `signedIn` flag, `SecureStore` (the
  RoleCache) is the `storedRole` field, and the RemoteRecordStore is a
  function from identity id to a `getDoc` outcome (found / missing /
  rejected promise).
* A JavaScript exception aborts the enclosing segment list at the point it
  is thrown; it reaches a `catch` only when the `try` is on the same
  (synchronous or awaited) call path.  The `try/catch` of
  `initializeFirebase` finishes when the listener is registered, so a
  rejection inside the listener callback never reaches it.
-/

namespace Rentopia

/-- The observable client state: the React state variables of `AuthProvider`
(`user` is modelled by its uid), plus the persisted `SecureStore` key
`userRole` (the RoleCache) and the IdentityProvider's session flag. -/
structure AppState where
  user : Option String
  userId : Option String
  userRole : Option String
  isAuthenticated : Bool
  isLoadingAuth : Bool
  storedRole : Option String
  signedIn : Bool
  deriving DecidableEq, Repr

/-- JavaScript truthiness for a nullable string (`if (storedRole)`):
`null` and the empty string are falsy. -/
def truthy : Option String → Bool
  | none => false
  | some s => !(s == "")

/-- `setUser(u)` -/
def setUser (u : Option String) (s : AppState) : AppState := { s with user := u }

/-- `setUserId(u)` -/
def setUserId (u : Option String) (s : AppState) : AppState := { s with userId := u }

/-- `setUserRole(r)` -/
def setUserRole (r : Option String) (s : AppState) : AppState := { s with userRole := r }

/-- `setIsAuthenticated(b)` -/
def setIsAuthenticated (b : Bool) (s : AppState) : AppState := { s with isAuthenticated := b }

/-- `setIsLoadingAuth(b)` -/
def setIsLoadingAuth (b : Bool) (s : AppState) : AppState := { s with isLoadingAuth := b }

/-- `SecureStore.setItemAsync('userRole', r)` -/
def storeRoleCache (r : String) (s : AppState) : AppState := { s with storedRole := some r }

/-- `SecureStore.deleteItemAsync('userRole')` -/
def deleteRoleCache (s : AppState) : AppState := { s with storedRole := none }

/-- Effect of a successful `signInWithEmailAndPassword` /
`createUserWithEmailAndPassword` on the IdentityProvider session. -/
def signInIdP (s : AppState) : AppState := { s with signedIn := true }

/-- `signOut(auth)` -/
def signOutIdP (s : AppState) : AppState := { s with signedIn := false }

/-- Outcome of `getDoc(userDocRef)` for a profile document: the document
exists (with its `role` field), does not exist, or the promise rejects with
a store error. -/
inductive GetDocResult where
  | found : String → GetDocResult
  | missing : GetDocResult
  | failed : GetDocResult
  deriving DecidableEq, Repr

/-- The RemoteRecordStore as seen by role resolution: the profile lookup
outcome for each identity id. -/
def Remote := String → GetDocResult

/-- One atomic step of an operation: a state update, or a RemoteRecordStore
round trip (`getDoc` read / `setDoc` write). -/
inductive Step where
  | upd : (AppState → AppState) → Step
  | storeRead : Step
  | storeWrite : Step

/-- Apply one step to the state (store round trips do not change the
client state by themselves). -/
def applyStep (s : AppState) : Step → AppState
  | .upd f => f s
  | .storeRead => s
  | .storeWrite => s

/-- Run a list of steps sequentially. -/
def runSteps (steps : List Step) (s : AppState) : AppState :=
  steps.foldl applyStep s

/-- All observable states of a sequential run: the entry state and the state
after each step. -/
def statesOf (steps : List Step) (s : AppState) : List AppState :=
  match steps with
  | [] => [s]
  | st :: rest => s :: statesOf rest (applyStep s st)

/-- Number of RemoteRecordStore calls (reads and writes) in a run. -/
def storeOps : List Step → Nat
  | [] => 0
  | .upd _ :: rest => storeOps rest
  | .storeRead :: rest => storeOps rest + 1
  | .storeWrite :: rest => storeOps rest + 1

/-- Lift state updates to steps. -/
def upds (fs : List (AppState → AppState)) : List Step := fs.map Step.upd

/-- Listener callback, opening segment for a present identity
(`setUser(currentUser); setUserId(currentUserId)`), before the first
`await`. -/
def cbStart (uid : String) : List (AppState → AppState) :=
  [setUser (some uid), setUserId (some uid)]

/-- Listener callback, RoleCache-hit branch
(`setUserRole(storedRole); setIsAuthenticated(true)`). -/
def cbCacheHit (cached : Option String) : List (AppState → AppState) :=
  [setUserRole cached, setIsAuthenticated true]

/-- Listener callback, cache-miss branch when the profile document exists:
adopt its role, mark authenticated, write the RoleCache. -/
def cbProfileFound (role : String) : List (AppState → AppState) :=
  [setUserRole (some role), setIsAuthenticated true, storeRoleCache role]

/-- Listener callback, cache-miss branch when no profile document exists:
clear all session state, clear the RoleCache, force sign-out. -/
def cbProfileMissing : List (AppState → AppState) :=
  [setIsAuthenticated false, setUser none, setUserRole none, setUserId none,
   deleteRoleCache, signOutIdP]

/-- Listener callback body for an absent identity. -/
def cbSignedOut : List (AppState → AppState) :=
  [setUser none, setIsAuthenticated false, setUserRole none, setUserId none,
   deleteRoleCache]

/-- `setIsLoadingAuth(false)` at the end of the listener callback. -/
def cbFinish : List (AppState → AppState) := [setIsLoadingAuth false]

/-- The `onAuthStateChanged` listener callback of `AuthProvider`, as the
sequence of steps a sequential invocation performs from state `s`.  When the
`getDoc` promise rejects, the callback aborts at that `await`: there is no
`try/catch` inside the callback, and the `initializeFirebase` `try` has
already returned, so no further statement of the callback runs
(in particular `setIsLoadingAuth(false)` is never reached). -/
def authCallback (remote : Remote) (currentUser : Option String) (s : AppState) : List Step :=
  match currentUser with
  | none => upds (cbSignedOut ++ cbFinish)
  | some uid =>
    upds (cbStart uid) ++
    (if truthy s.storedRole then
      upds (cbCacheHit s.storedRole ++ cbFinish)
    else
      Step.storeRead ::
        (match remote uid with
         | .found role => upds (cbProfileFound role ++ cbFinish)
         | .missing => upds (cbProfileMissing ++ cbFinish)
         | .failed => []))

/-- Errors surfaced by the `login` / `register` commands. -/
inductive AuthErr where
  | identityErr : AuthErr
  | profileMissing : AuthErr
  | storeFailure : AuthErr
  deriving DecidableEq, Repr

/-- Outcome of an IdentityProvider credential call
(`signInWithEmailAndPassword` / `createUserWithEmailAndPassword`). -/
inductive CredentialOutcome where
  | ok : String → CredentialOutcome
  | failed : CredentialOutcome
  deriving DecidableEq, Repr

/-- The `login(email, password)` command: its sequential steps and the error
it re-raises to the caller (`none` on success).  On a missing profile the
code runs `setIsAuthenticated(false); await signOut(auth); throw`, and the
`catch` then runs `setIsAuthenticated(false); setUser(null);
setUserRole(null)` before re-raising; the `finally` always runs
`setIsLoadingAuth(false)`.  Note the `catch` does not touch `userId`. -/
def login (signIn : CredentialOutcome) (remote : Remote) : List Step × Option AuthErr :=
  match signIn with
  | .failed =>
    (upds ([setIsLoadingAuth true] ++
           [setIsAuthenticated false, setUser none, setUserRole none] ++
           [setIsLoadingAuth false]),
     some .identityErr)
  | .ok uid =>
    let start := upds [setIsLoadingAuth true, signInIdP, setUser (some uid),
                       setUserId (some uid)] ++ [Step.storeRead]
    match remote uid with
    | .found role =>
      (start ++ upds [setUserRole (some role), setIsAuthenticated true,
                      storeRoleCache role, setIsLoadingAuth false],
       none)
    | .missing =>
      (start ++ upds ([setIsAuthenticated false, signOutIdP] ++
                      [setIsAuthenticated false, setUser none, setUserRole none] ++
                      [setIsLoadingAuth false]),
       some .profileMissing)
    | .failed =>
      (start ++ upds ([setIsAuthenticated false, setUser none, setUserRole none] ++
                      [setIsLoadingAuth false]),
       some .storeFailure)

/-- The `register(email, password, role, ...)` command: its sequential steps
and the re-raised error.  After a successful sign-up the profile document is
written with `setDoc`; on write failure the `catch` clears
`isAuthenticated`, `user` and `userRole` and re-raises — it never calls
`signOut`, so the IdentityProvider session created by the sign-up is left in
place. -/
def register (signUp : CredentialOutcome) (writeOk : Bool) (role : String) :
    List Step × Option AuthErr :=
  match signUp with
  | .failed =>
    (upds ([setIsLoadingAuth true] ++
           [setIsAuthenticated false, setUser none, setUserRole none] ++
           [setIsLoadingAuth false]),
     some .identityErr)
  | .ok uid =>
    let start := upds [setIsLoadingAuth true, signInIdP, setUser (some uid),
                       setUserId (some uid)] ++ [Step.storeWrite]
    if writeOk then
      (start ++ upds [setUserRole (some role), setIsAuthenticated true,
                      storeRoleCache role, setIsLoadingAuth false],
       none)
    else
      (start ++ upds ([setIsAuthenticated false, setUser none, setUserRole none] ++
                      [setIsLoadingAuth false]),
       some .storeFailure)

/-- The `logout()` command: `setIsLoadingAuth(true); await signOut(auth);
setIsLoadingAuth(false)` (the state transition itself is driven later by the
listener firing with a null user). -/
def logout : List Step :=
  upds [setIsLoadingAuth true, signOutIdP, setIsLoadingAuth false]

/-- The `catch` of `initializeFirebase` (initialization failure): reset to
an unauthenticated state and clear the RoleCache. -/
def initFailureHandler : List Step :=
  upds [setIsLoadingAuth false, setIsAuthenticated false, setUser none,
        setUserRole none, setUserId none, deleteRoleCache]

/-- Every operation of the SessionController that mutates the session. -/
inductive OpKind where
  | authChange : Option String → OpKind
  | doLogin : CredentialOutcome → OpKind
  | doRegister : CredentialOutcome → Bool → String → OpKind
  | doLogout : OpKind
  | initFailure : OpKind

/-- The steps an operation performs when run sequentially from state `s`. -/
def opSteps (remote : Remote) (k : OpKind) (s : AppState) : List Step :=
  match k with
  | .authChange cu => authCallback remote cu s
  | .doLogin si => (login si remote).1
  | .doRegister su w r => (register su w r).1
  | .doLogout => logout
  | .initFailure => initFailureHandler

/-- The session invariant: an authenticated session always carries a role. -/
def sessionInvB (s : AppState) : Bool := !s.isAuthenticated || s.userRole.isSome

/-- A truthy nullable string is non-null. -/
theorem truthy_isSome {o : Option String} (h : truthy o = true) : o.isSome = true := by
  cases o <;> simp_all [truthy]

/-- Claim C1: for every reachable state of the SessionController — including
every intermediate state during bootstrap (the listener callback), login,
register, and logout — if the session is authenticated then its role is
non-null; no operation exposes an authenticated-but-roleless state at any
observable point. -/
theorem auth_implies_role_invariant (remote : Remote) (k : OpKind) (s : AppState)
    (h : sessionInvB s = true) :
    (statesOf (opSteps remote k s) s).all sessionInvB = true := by
  cases k with
  | authChange cu =>
    cases cu with
    | none =>
      simp_all [opSteps, authCallback, upds, cbSignedOut, cbFinish, statesOf, applyStep,
        sessionInvB, setUser, setIsAuthenticated, setUserRole, setUserId, deleteRoleCache,
        setIsLoadingAuth]
    | some uid =>
      by_cases ht : truthy s.storedRole
      · have hr := truthy_isSome ht
        simp_all [opSteps, authCallback, upds, cbStart, cbCacheHit, cbFinish, statesOf,
          applyStep, sessionInvB, setUser, setUserId, setUserRole, setIsAuthenticated,
          setIsLoadingAuth]
      · cases hrem : remote uid with
        | found role =>
          simp_all [opSteps, authCallback, upds, cbStart, cbProfileFound, cbFinish, statesOf,
            applyStep, sessionInvB, setUser, setUserId, setUserRole, setIsAuthenticated,
            storeRoleCache, setIsLoadingAuth]
        | missing =>
          simp_all [opSteps, authCallback, upds, cbStart, cbProfileMissing, cbFinish, statesOf,
            applyStep, sessionInvB, setUser, setUserId, setUserRole, setIsAuthenticated,
            deleteRoleCache, signOutIdP, setIsLoadingAuth]
        | failed =>
          simp_all [opSteps, authCallback, upds, cbStart, statesOf, applyStep, sessionInvB,
            setUser, setUserId]
  | doLogin si =>
    cases si with
    | failed =>
      simp_all [opSteps, login, upds, statesOf, applyStep, sessionInvB, setUser, setUserRole,
        setIsAuthenticated, setIsLoadingAuth]
    | ok uid =>
      cases hrem : remote uid with
      | found role =>
        simp_all [opSteps, login, upds, statesOf, applyStep, sessionInvB, setUser, setUserId,
          setUserRole, setIsAuthenticated, storeRoleCache, setIsLoadingAuth, signInIdP]
      | missing =>
        simp_all [opSteps, login, upds, statesOf, applyStep, sessionInvB, setUser, setUserId,
          setUserRole, setIsAuthenticated, signOutIdP, setIsLoadingAuth, signInIdP]
      | failed =>
        simp_all [opSteps, login, upds, statesOf, applyStep, sessionInvB, setUser, setUserId,
          setUserRole, setIsAuthenticated, setIsLoadingAuth, signInIdP]
  | doRegister su writeOk role =>
    cases su with
    | failed =>
      simp_all [opSteps, register, upds, statesOf, applyStep, sessionInvB, setUser,
        setUserRole, setIsAuthenticated, setIsLoadingAuth]
    | ok uid =>
      cases writeOk <;>
        simp_all [opSteps, register, upds, statesOf, applyStep, sessionInvB, setUser,
          setUserId, setUserRole, setIsAuthenticated, storeRoleCache, setIsLoadingAuth,
          signInIdP]
  | doLogout =>
    simp_all [opSteps, logout, upds, statesOf, applyStep, sessionInvB, setIsLoadingAuth,
      signOutIdP]
  | initFailure =>
    simp_all [opSteps, initFailureHandler, upds, statesOf, applyStep, sessionInvB, setUser,
      setUserRole, setUserId, setIsAuthenticated, setIsLoadingAuth, deleteRoleCache]

/-- Witness for C1: the invariant holds at every observable point of a cold
bootstrap that finds a profile for identity `u1`. -/
theorem auth_implies_role_invariant_witness :
    (statesOf
        (opSteps (fun _ => GetDocResult.found "renter") (OpKind.authChange (some "u1"))
          ⟨none, none, none, false, true, none, true⟩)
        ⟨none, none, none, false, true, none, true⟩).all sessionInvB = true :=
  auth_implies_role_invariant (fun _ => GetDocResult.found "renter")
    (OpKind.authChange (some "u1")) ⟨none, none, none, false, true, none, true⟩ (by decide)

/-- State at process start while the IdentityProvider still holds a
persisted identity: everything null, `isLoadingAuth = true`, RoleCache
empty. -/
def bootState : AppState := ⟨none, none, none, false, true, none, true⟩

/-- Fresh signed-out state (after a completed sign-out notification). -/
def freshState : AppState := ⟨none, none, none, false, false, none, false⟩

/-- Claim C2 (code behaviour at the failing input): with an empty RoleCache,
when the profile read rejects during the listener callback, the rejection
escapes the `async` callback — the `try/catch` of `initializeFirebase` has
already returned, so no catch runs.  The run stops at the failed `await`:
the identity fields stay set, `isLoadingAuth` stays `true` (bootstrap never
completes), nothing is cleared, and the error is never surfaced to the
bootstrap caller — contrary to the claimed clear-and-go-Unauthenticated
handling. -/
theorem bootstrap_store_error_leaves_partial_session :
    runSteps (authCallback (fun _ => GetDocResult.failed) (some "u1") bootState) bootState =
      ⟨some "u1", some "u1", none, false, true, none, true⟩ := by
  decide

/-- Claim C9: when an identity becomes present and the RoleCache holds a
(truthy) role for it, role resolution adopts the cached role, marks the
session authenticated, and performs zero RemoteRecordStore calls. -/
theorem cache_hit_resolves_without_store_call (remote : Remote) (uid r : String)
    (s : AppState) (hc : s.storedRole = some r) (hr : r ≠ "") :
    storeOps (authCallback remote (some uid) s) = 0 ∧
    (runSteps (authCallback remote (some uid) s) s).isAuthenticated = true ∧
    (runSteps (authCallback remote (some uid) s) s).userRole = some r := by
  have ht : truthy (some r) = true := by simp [truthy, hr]
  simp [authCallback, ht, hc, upds, cbStart, cbCacheHit, cbFinish, runSteps, applyStep,
    storeOps, setUser, setUserId, setUserRole, setIsAuthenticated, setIsLoadingAuth]

/-- Witness for C9: warm start for identity `u1` with cached role `agent`,
against a store whose every read would reject — it is never contacted. -/
theorem cache_hit_resolves_without_store_call_witness :
    storeOps (authCallback (fun _ => GetDocResult.failed) (some "u1")
        ⟨none, none, none, false, true, some "agent", true⟩) = 0 ∧
    (runSteps (authCallback (fun _ => GetDocResult.failed) (some "u1")
          ⟨none, none, none, false, true, some "agent", true⟩)
        ⟨none, none, none, false, true, some "agent", true⟩).isAuthenticated = true ∧
    (runSteps (authCallback (fun _ => GetDocResult.failed) (some "u1")
          ⟨none, none, none, false, true, some "agent", true⟩)
        ⟨none, none, none, false, true, some "agent", true⟩).userRole = some "agent" :=
  cache_hit_resolves_without_store_call (fun _ => GetDocResult.failed) "u1" "agent"
    ⟨none, none, none, false, true, some "agent", true⟩ rfl (by decide)

/-- The stale-resolution interleaving the code permits: the listener fires
for identity `uid` and its opening segment runs (profile read now pending);
the user triggers `logout`, the IdentityProvider emits the sign-out
notification and that callback runs to completion; then the pending read
resolves with role `r` and the first callback's continuation runs.  Nothing
in the code compares the resolution's identity against the latest
notification, so the continuation runs unconditionally. -/
def staleRaceRun (remote : Remote) (uid r : String) (s : AppState) : AppState :=
  let s1 := runSteps (upds (cbStart uid)) s
  let s2 := runSteps logout s1
  let s3 := runSteps (authCallback remote none s2) s2
  runSteps (upds (cbProfileFound r ++ cbFinish)) s3

/-- Counterexample to claim C6: with the latest identity-changed
notification reporting no identity (its callback fully completed, session
Unauthenticated), the stale resolution for `u1` still writes the session
state and the RoleCache: the client ends marked authenticated with role
`renter` and a repopulated RoleCache while the IdentityProvider is signed
out and the user object is null. -/
theorem stale_resolution_writes_session :
    staleRaceRun (fun _ => GetDocResult.found "renter") "u1" "renter" bootState =
      ⟨none, none, some "renter", true, false, some "renter", false⟩ := by
  decide

/-- Claim C6 as amended: the code has no stale-write protection — whenever a
resolution's pending profile read resolves after a sign-out notification has
completed, its continuation still writes role, authenticated flag and
RoleCache, for any identity and role and from any starting state. -/
theorem stale_resolution_overwrites_session (remote : Remote) (uid r : String)
    (s : AppState) :
    staleRaceRun remote uid r s =
      ⟨none, none, some r, true, false, some r, false⟩ := by
  simp [staleRaceRun, logout, authCallback, upds, cbStart, cbSignedOut, cbFinish,
    cbProfileFound, runSteps, applyStep, setUser, setUserId, setUserRole,
    setIsAuthenticated, setIsLoadingAuth, storeRoleCache, deleteRoleCache, signOutIdP]

/-- Counterexample to claim C3: when sign-up succeeds and the profile write
fails, `register`'s catch clears only the local React state and re-raises —
it never calls `signOut`, so the new identity is left signed in at the
IdentityProvider without a profile. -/
theorem register_write_failure_keeps_identity_signed_in :
    (runSteps (register (CredentialOutcome.ok "u2") false "agent").1 freshState).signedIn
        = true ∧
    (register (CredentialOutcome.ok "u2") false "agent").2 = some AuthErr.storeFailure := by
  decide

/-- Claim C3 as amended: on a failed profile write after successful sign-up,
`register` clears `isAuthenticated`, `user` and `userRole`, keeps `userId`,
re-raises the error — and leaves the IdentityProvider session signed in
(no forced sign-out; the dangling identity is only cleaned up when a later
resolution finds the profile missing). -/
theorem register_write_failure_behavior (uid role : String) (s : AppState) :
    runSteps (register (CredentialOutcome.ok uid) false role).1 s =
      { s with user := none, userId := some uid, userRole := none,
               isAuthenticated := false, isLoadingAuth := false, signedIn := true } ∧
    (register (CredentialOutcome.ok uid) false role).2 = some AuthErr.storeFailure := by
  constructor
  · simp [register, upds, runSteps, applyStep, setUser, setUserId, setUserRole,
      setIsAuthenticated, setIsLoadingAuth, signInIdP]
  · rfl

/-- Counterexample to claim C4: after a login whose credential sign-in
succeeds but whose profile document is missing, the re-raised error is the
profile-missing error — but the `userId` state still holds the id returned
by the failed sign-in: the identity id is not cleared before the error is
re-raised. -/
theorem login_profile_missing_retains_userId :
    (runSteps (login (CredentialOutcome.ok "u1") (fun _ => GetDocResult.missing)).1
        freshState).userId = some "u1" ∧
    (login (CredentialOutcome.ok "u1") (fun _ => GetDocResult.missing)).2
        = some AuthErr.profileMissing := by
  decide

/-- Claim C4 as amended: on login with a missing profile the code forces
sign-out at the IdentityProvider, raises the profile-missing error, and
before re-raising clears the user object and role with `authenticated`
false — but the `userId` field retains the id from the failed sign-in
rather than being cleared. -/
theorem login_profile_missing_behavior (uid : String) (remote : Remote) (s : AppState)
    (h : remote uid = GetDocResult.missing) :
    runSteps (login (CredentialOutcome.ok uid) remote).1 s =
      { s with user := none, userId := some uid, userRole := none,
               isAuthenticated := false, isLoadingAuth := false, signedIn := false } ∧
    (login (CredentialOutcome.ok uid) remote).2 = some AuthErr.profileMissing := by
  constructor
  · simp [login, h, upds, runSteps, applyStep, setUser, setUserId, setUserRole,
      setIsAuthenticated, setIsLoadingAuth, signInIdP, signOutIdP]
  · simp [login, h]

/-- Witness for the amended C4: concrete failed login for `u1`. -/
theorem login_profile_missing_behavior_witness :
    runSteps (login (CredentialOutcome.ok "u1") (fun _ => GetDocResult.missing)).1
        freshState =
      { freshState with user := none, userId := some "u1", userRole := none,
                        isAuthenticated := false, isLoadingAuth := false,
                        signedIn := false } ∧
    (login (CredentialOutcome.ok "u1") (fun _ => GetDocResult.missing)).2
        = some AuthErr.profileMissing :=
  login_profile_missing_behavior "u1" (fun _ => GetDocResult.missing) freshState rfl

/-! ### The data-access and subscription layer (`services/firestoreService.js`)

Documents are JavaScript objects, modelled as association lists in which a
later entry for a key overrides an earlier one — exactly the semantics of
the object spreads (`{...data, updatedAt: ...}`) and of `setDoc` with
`{merge: true}` used by the source.  The module-level `db` variable that may
have stayed `undefined` is the `dbInit : Bool` parameter; every operation
returns its result together with the number of RemoteRecordStore round
trips it performed. -/

/-- A document field value.  `serverTimestamp` is the `serverTimestamp()`
sentinel resolved by the store's clock; `clientDate` is a `new Date()`
value taken from the local clock. -/
inductive Value where
  | str : String → Value
  | num : Int → Value
  | serverTimestamp : Value
  | clientDate : Nat → Value
  deriving DecidableEq, Repr

/-- A document: field/value pairs, later entries overriding earlier ones. -/
abbrev Doc := List (String × Value)

/-- Field lookup with later-entry-wins semantics. -/
def getField : Doc → String → Option Value
  | [], _ => none
  | p :: rest, k =>
    match getField rest k with
    | some v => some v
    | none => if p.1 == k then some p.2 else none

/-- Whether a document supplies a field. -/
def hasKey (d : Doc) (k : String) : Bool := d.any fun p => p.1 == k

theorem hasKey_cons (p : String × Value) (d : Doc) (k : String) :
    hasKey (p :: d) k = ((p.1 == k) || hasKey d k) := by
  simp [hasKey, List.any_cons]

theorem getField_append (a b : Doc) (k : String) :
    getField (a ++ b) k =
      match getField b k with
      | some v => some v
      | none => getField a k := by
  induction a with
  | nil => cases h : getField b k <;> simp [getField, h]
  | cons p a ih =>
    cases h : getField b k with
    | none => simp only [List.cons_append, getField, List.append_eq, ih, h]
    | some v => simp only [List.cons_append, getField, List.append_eq, ih, h]

theorem getField_eq_none_of_not_hasKey {d : Doc} {k : String} (h : hasKey d k = false) :
    getField d k = none := by
  induction d with
  | nil => rfl
  | cons p d ih =>
    rw [hasKey_cons] at h
    have h1 : (p.1 == k) = false := by
      cases hx : (p.1 == k) <;> simp_all
    have h2 : hasKey d k = false := by
      cases hx : hasKey d k <;> simp_all
    simp [getField, ih h2, h1]

theorem getField_isSome_of_hasKey {d : Doc} {k : String} (h : hasKey d k = true) :
    (getField d k).isSome = true := by
  induction d with
  | nil => simp [hasKey] at h
  | cons p d ih =>
    rw [hasKey_cons] at h
    cases hd : hasKey d k with
    | true =>
      have := ih hd
      cases h2 : getField d k <;> simp_all [getField]
    | false =>
      have h1 : (p.1 == k) = true := by
        cases hx : (p.1 == k) <;> simp_all
      simp [getField, getField_eq_none_of_not_hasKey hd, h1]

/-- `data` with the server-assigned creation timestamp appended
(`{...data, createdAt: serverTimestamp()}`). -/
def withCreatedAt (data : Doc) : Doc := data ++ [("createdAt", Value.serverTimestamp)]

/-- `data` with the server-assigned update timestamp appended
(`{...data, updatedAt: serverTimestamp()}`). -/
def withUpdatedAt (data : Doc) : Doc := data ++ [("updatedAt", Value.serverTimestamp)]

/-- The RemoteRecordStore contents: path-and-id addressed documents. -/
structure Store where
  docs : List ((String × String) × Doc)
  deriving DecidableEq, Repr

/-- Look up the document at `(collectionPath, docId)`. -/
def Store.lookup (st : Store) (path docId : String) : Option Doc :=
  (st.docs.find? fun e => e.1.1 == path && e.1.2 == docId).map (·.2)

/-- Write the document at `(collectionPath, docId)`, replacing any previous
version. -/
def Store.put (st : Store) (path docId : String) (d : Doc) : Store :=
  ⟨((path, docId), d) :: st.docs.filter fun e => !(e.1.1 == path && e.1.2 == docId)⟩

theorem find?_filter_congr {α} (p q : α → Bool) (h : ∀ e, q e = false → p e = false)
    (l : List α) : (l.filter q).find? p = l.find? p := by
  induction l with
  | nil => rfl
  | cons e l ih =>
    cases hq : q e
    · have hp := h e hq
      simp [List.filter_cons, hq, List.find?, hp, ih]
    · cases hp : p e <;> simp [List.filter_cons, hq, List.find?, hp, ih]

theorem Store.lookup_put_self (st : Store) (path docId : String) (d : Doc) :
    (st.put path docId d).lookup path docId = some d := by
  simp [Store.put, Store.lookup, List.find?]

theorem Store.lookup_put_ne (st : Store) (path docId p2 i2 : String) (d : Doc)
    (h : ¬(p2 = path ∧ i2 = docId)) :
    (st.put path docId d).lookup p2 i2 = st.lookup p2 i2 := by
  have hhead : ((path == p2) && (docId == i2)) = false := by
    cases hb1 : (path == p2) with
    | false => rfl
    | true =>
      cases hb2 : (docId == i2) with
      | false => rfl
      | true =>
        simp only [beq_iff_eq] at hb1 hb2
        exact absurd ⟨hb1.symm, hb2.symm⟩ h
  have hpq : ∀ e : (String × String) × Doc,
      (!((e.1.1 == path) && (e.1.2 == docId))) = false →
      ((e.1.1 == p2) && (e.1.2 == i2)) = false := by
    intro e he
    have he2 : ((e.1.1 == path) && (e.1.2 == docId)) = true := by
      cases hx : ((e.1.1 == path) && (e.1.2 == docId)) <;> simp_all
    obtain ⟨x1, x2⟩ : e.1.1 = path ∧ e.1.2 = docId := by
      simpa [Bool.and_eq_true, beq_iff_eq] using he2
    rw [x1, x2]
    exact hhead
  unfold Store.put Store.lookup
  rw [List.find?]
  simp only [hhead]
  rw [find?_filter_congr _ _ hpq]

/-- Errors of the data-access layer: the fail-fast "Firestore is not
initialized." guard, and a store-level failure (e.g. `updateDoc` on a
missing document). -/
inductive StoreErr where
  | uninitialized : StoreErr
  | notFound : StoreErr
  deriving DecidableEq, Repr

/-- `addDocument(collectionPath, data)`: fail fast when `db` is undefined;
otherwise one `addDoc` round trip writing `{...data, createdAt:
serverTimestamp()}` under a store-generated id. -/
def addDocument (dbInit : Bool) (st : Store) (collectionPath newId : String) (data : Doc) :
    Except StoreErr (String × Store) × Nat :=
  if !dbInit then (Except.error StoreErr.uninitialized, 0)
  else (Except.ok (newId, st.put collectionPath newId (withCreatedAt data)), 1)

/-- `setDocument(collectionPath, docId, data)`: fail fast when `db` is
undefined; otherwise one `setDoc(..., {...data, updatedAt:
serverTimestamp()}, {merge: true})` round trip — supplied fields override,
all other fields of an existing document are kept. -/
def setDocument (dbInit : Bool) (st : Store) (collectionPath docId : String) (data : Doc) :
    Except StoreErr Store × Nat :=
  if !dbInit then (Except.error StoreErr.uninitialized, 0)
  else
    match st.lookup collectionPath docId with
    | some old => (Except.ok (st.put collectionPath docId (old ++ withUpdatedAt data)), 1)
    | none => (Except.ok (st.put collectionPath docId (withUpdatedAt data)), 1)

/-- `updateDocument(collectionPath, docId, data)`: fail fast when `db` is
undefined; otherwise one `updateDoc` round trip, which the store rejects if
the document does not exist. -/
def updateDocument (dbInit : Bool) (st : Store) (collectionPath docId : String) (data : Doc) :
    Except StoreErr Store × Nat :=
  if !dbInit then (Except.error StoreErr.uninitialized, 0)
  else
    match st.lookup collectionPath docId with
    | some old => (Except.ok (st.put collectionPath docId (old ++ withUpdatedAt data)), 1)
    | none => (Except.error StoreErr.notFound, 1)

/-- `getDocument(collectionPath, docId)`. -/
def getDocument (dbInit : Bool) (st : Store) (collectionPath docId : String) :
    Except StoreErr (Option Doc) × Nat :=
  if !dbInit then (Except.error StoreErr.uninitialized, 0)
  else (Except.ok (st.lookup collectionPath docId), 1)

/-- `deleteDocument(collectionPath, docId)`. -/
def deleteDocument (dbInit : Bool) (st : Store) (collectionPath docId : String) :
    Except StoreErr Store × Nat :=
  if !dbInit then (Except.error StoreErr.uninitialized, 0)
  else (Except.ok ⟨st.docs.filter fun e => !(e.1.1 == collectionPath && e.1.2 == docId)⟩, 1)

/-- The documents of a collection, in store order. -/
def collectionDocs (st : Store) (path : String) : List Doc :=
  (st.docs.filter fun e => e.1.1 == path).map (·.2)

/-- `getAllDocuments(collectionPath)`. -/
def getAllDocuments (dbInit : Bool) (st : Store) (collectionPath : String) :
    Except StoreErr (List Doc) × Nat :=
  if !dbInit then (Except.error StoreErr.uninitialized, 0)
  else (Except.ok (collectionDocs st collectionPath), 1)

/-- A filter operator of a `where` condition. -/
inductive FilterOp where
  | eq | ne | lt | le | gt | ge
  deriving DecidableEq, Repr

/-- A `{field, operator, value}` condition of `listenToCollection`. -/
structure Cond where
  field : String
  op : FilterOp
  value : Value
  deriving DecidableEq, Repr

/-- Rank used to order values of different kinds. -/
def Value.rank : Value → Nat
  | .str _ => 0
  | .num _ => 1
  | .serverTimestamp => 2
  | .clientDate _ => 3

/-- Total comparison on field values (the store's ordering for range
operators). -/
def Value.cmp : Value → Value → Ordering
  | .str x, .str y => compare x y
  | .num x, .num y => compare x y
  | .clientDate x, .clientDate y => compare x y
  | a, b => compare a.rank b.rank

/-- Whether a document satisfies one condition; a document that does not
supply the field never matches. -/
def evalCond (d : Doc) (c : Cond) : Bool :=
  match getField d c.field with
  | none => false
  | some v =>
    match c.op with
    | .eq => v == c.value
    | .ne => !(v == c.value)
    | .lt => Value.cmp v c.value == Ordering.lt
    | .le => Value.cmp v c.value != Ordering.gt
    | .gt => Value.cmp v c.value == Ordering.gt
    | .ge => Value.cmp v c.value != Ordering.lt

/-- The query built by `conditions.forEach(c => q = query(q, where(...)))`:
the accumulated `where` clauses. -/
def buildQuery (conditions : List Cond) : List Cond :=
  conditions.foldl (fun q c => q ++ [c]) []

/-- A document matches a query when it satisfies every accumulated `where`
clause. -/
def matchesQuery (q : List Cond) (d : Doc) : Bool := q.all (evalCond d)

/-- `listenToCollection(collectionPath, conditions, ...)`: fail fast when
`db` is undefined (the error goes to `onError` and no listener is created);
otherwise each snapshot delivers the full current result set of the built
query. -/
def listenToCollection (dbInit : Bool) (st : Store) (collectionPath : String)
    (conditions : List Cond) : Except StoreErr (List Doc) × Nat :=
  if !dbInit then (Except.error StoreErr.uninitialized, 0)
  else (Except.ok ((collectionDocs st collectionPath).filter
          (matchesQuery (buildQuery conditions))), 1)

/-- `listenToDocument(collectionPath, docId, ...)`: fail fast when `db` is
undefined; otherwise each snapshot delivers the current document (or its
absence). -/
def listenToDocument (dbInit : Bool) (st : Store) (collectionPath docId : String) :
    Except StoreErr (Option Doc) × Nat :=
  if !dbInit then (Except.error StoreErr.uninitialized, 0)
  else (Except.ok (st.lookup collectionPath docId), 1)

theorem foldl_append_singleton (l acc : List Cond) :
    l.foldl (fun q c => q ++ [c]) acc = acc ++ l := by
  induction l generalizing acc with
  | nil => simp
  | cons c l ih => simp [List.foldl_cons, ih]

theorem buildQuery_eq (conditions : List Cond) : buildQuery conditions = conditions := by
  simp [buildQuery, foldl_append_singleton]

theorem hasKey_append (a b : Doc) (k : String) :
    hasKey (a ++ b) k = (hasKey a k || hasKey b k) := by
  simp [hasKey, List.any_append]

theorem getField_withCreatedAt (data : Doc) :
    getField (withCreatedAt data) "createdAt" = some Value.serverTimestamp := by
  rw [withCreatedAt, getField_append]
  simp [getField]

theorem getField_withUpdatedAt (data : Doc) :
    getField (withUpdatedAt data) "updatedAt" = some Value.serverTimestamp := by
  rw [withUpdatedAt, getField_append]
  simp [getField]

/-- The `profileData` object literal built by `register` in
`context/AuthContext.js`: supplied fields, `createdAt: new Date()` — a
client-clock value — the new identity id, and, for agents with details
supplied, the spread agent fields. -/
def profileData (email role firstName lastName phoneNumber : String) (now : Nat)
    (uid : String) (agentDetails : Option Doc) : Doc :=
  [("email", Value.str email), ("role", Value.str role),
   ("firstName", Value.str firstName), ("lastName", Value.str lastName),
   ("phoneNumber", Value.str phoneNumber), ("createdAt", Value.clientDate now),
   ("userId", Value.str uid)] ++
  (if (role == "agent") && agentDetails.isSome then agentDetails.getD [] else [])

/-- Claim C7: every data-access and subscription operation invoked while the
store connection is not initialized fails fast with the specific
store-uninitialized error and performs zero RemoteRecordStore calls — the
guard runs before any query is constructed. -/
theorem uninitialized_store_fails_fast (st : Store) (path docId newId : String)
    (data : Doc) (conditions : List Cond) :
    addDocument false st path newId data = (Except.error StoreErr.uninitialized, 0) ∧
    setDocument false st path docId data = (Except.error StoreErr.uninitialized, 0) ∧
    updateDocument false st path docId data = (Except.error StoreErr.uninitialized, 0) ∧
    getDocument false st path docId = (Except.error StoreErr.uninitialized, 0) ∧
    deleteDocument false st path docId = (Except.error StoreErr.uninitialized, 0) ∧
    getAllDocuments false st path = (Except.error StoreErr.uninitialized, 0) ∧
    listenToDocument false st path docId = (Except.error StoreErr.uninitialized, 0) ∧
    listenToCollection false st path conditions = (Except.error StoreErr.uninitialized, 0) :=
  ⟨rfl, rfl, rfl, rfl, rfl, rfl, rfl, rfl⟩

/-- Claim C8: a collection subscription with filter conditions delivers, on
every emission (every store snapshot `st`), the entire current result set as
a full replacement, and a document belongs to it iff it is in the collection
and satisfies every (field, operator, value) condition — the conjunction of
the accumulated where clauses. -/
theorem listen_collection_delivers_conjunction (st : Store) (path : String)
    (conditions : List Cond) (d : Doc) :
    ∃ ds, listenToCollection true st path conditions = (Except.ok ds, 1) ∧
      (d ∈ ds ↔ d ∈ collectionDocs st path ∧ ∀ c ∈ conditions, evalCond d c = true) := by
  refine ⟨_, rfl, ?_⟩
  simp [List.mem_filter, matchesQuery, buildQuery_eq, List.all_eq_true]

/-- Claim C10: `setDocument` writes with merge semantics — for an existing
target document every field not supplied keeps its previous value, supplied
fields take the supplied value, the `updatedAt` server timestamp is added,
and every other document in the store is unchanged. -/
theorem setDocument_merge_semantics (st : Store) (path docId : String) (data old : Doc)
    (kOld kNew p2 i2 : String)
    (hold : st.lookup path docId = some old)
    (hkOld : hasKey data kOld = false) (hkOldU : kOld ≠ "updatedAt")
    (hkNew : hasKey data kNew = true) (hkNewU : kNew ≠ "updatedAt")
    (hother : ¬(p2 = path ∧ i2 = docId)) :
    ∃ st2, setDocument true st path docId data = (Except.ok st2, 1) ∧
      st2.lookup path docId = some (old ++ withUpdatedAt data) ∧
      getField (old ++ withUpdatedAt data) kOld = getField old kOld ∧
      getField (old ++ withUpdatedAt data) kNew = getField data kNew ∧
      getField (old ++ withUpdatedAt data) "updatedAt" = some Value.serverTimestamp ∧
      st2.lookup p2 i2 = st.lookup p2 i2 := by
  refine ⟨st.put path docId (old ++ withUpdatedAt data), ?_, ?_, ?_, ?_, ?_, ?_⟩
  · simp [setDocument, hold]
  · exact Store.lookup_put_self st path docId _
  · have h1 : hasKey (withUpdatedAt data) kOld = false := by
      rw [withUpdatedAt, hasKey_append, hkOld]
      have : ("updatedAt" == kOld) = false := by
        simp [beq_iff_eq]
        exact Ne.symm hkOldU
      simp [hasKey, this]
    rw [getField_append, getField_eq_none_of_not_hasKey h1]
  · have h2 : getField (withUpdatedAt data) kNew = getField data kNew := by
      rw [withUpdatedAt, getField_append]
      have : ("updatedAt" == kNew) = false := by
        simp [beq_iff_eq]
        exact Ne.symm hkNewU
      simp [getField, this]
    obtain ⟨v, hv⟩ := Option.isSome_iff_exists.1 (getField_isSome_of_hasKey hkNew)
    rw [getField_append, h2, hv]
  · rw [getField_append, getField_withUpdatedAt]
  · exact Store.lookup_put_ne st path docId p2 i2 _ hother

/-- Witness for C10: merging `{b: "y2"}` into the document `d1 = {a: "x",
b: "y"}` of collection `c` keeps `a`, overrides `b`, stamps `updatedAt`,
and leaves the sibling document `d2` untouched. -/
theorem setDocument_merge_semantics_witness :
    ∃ st2,
      setDocument true
          ⟨[(("c", "d1"), [("a", Value.str "x"), ("b", Value.str "y")]),
            (("c", "d2"), [("z", Value.str "w")])]⟩
          "c" "d1" [("b", Value.str "y2")] = (Except.ok st2, 1) ∧
      st2.lookup "c" "d1"
          = some ([("a", Value.str "x"), ("b", Value.str "y")] ++
              withUpdatedAt [("b", Value.str "y2")]) ∧
      getField ([("a", Value.str "x"), ("b", Value.str "y")] ++
          withUpdatedAt [("b", Value.str "y2")]) "a"
        = getField [("a", Value.str "x"), ("b", Value.str "y")] "a" ∧
      getField ([("a", Value.str "x"), ("b", Value.str "y")] ++
          withUpdatedAt [("b", Value.str "y2")]) "b"
        = getField [("b", Value.str "y2")] "b" ∧
      getField ([("a", Value.str "x"), ("b", Value.str "y")] ++
          withUpdatedAt [("b", Value.str "y2")]) "updatedAt"
        = some Value.serverTimestamp ∧
      st2.lookup "c" "d2"
          = Store.lookup
              ⟨[(("c", "d1"), [("a", Value.str "x"), ("b", Value.str "y")]),
                (("c", "d2"), [("z", Value.str "w")])]⟩ "c" "d2" :=
  setDocument_merge_semantics
    ⟨[(("c", "d1"), [("a", Value.str "x"), ("b", Value.str "y")]),
      (("c", "d2"), [("z", Value.str "w")])]⟩
    "c" "d1" [("b", Value.str "y2")] [("a", Value.str "x"), ("b", Value.str "y")]
    "a" "b" "c" "d2" rfl (by decide) (by decide) (by decide) (by decide) (by decide)

/-- Counterexample to claim C5: the Profile document written by `register`
carries `createdAt: new Date()` — a client-clock value, not the
server-assigned timestamp every write is claimed to attach. -/
theorem register_createdAt_is_client_clock :
    getField (profileData "a@b.c" "renter" "Ada" "Lee" "070" 1700 "u1" none) "createdAt"
        = some (Value.clientDate 1700) ∧
    getField (profileData "a@b.c" "renter" "Ada" "Lee" "070" 1700 "u1" none) "createdAt"
        ≠ some Value.serverTimestamp := by
  decide

/-- Claim C5 as amended: the DataAccessLayer writes attach server-assigned
timestamps (`createdAt` on `addDocument`; `updatedAt` on `setDocument` and
`updateDocument`, whether creating or updating), but the Profile document
written by `register` carries a client-clock `createdAt` (`new Date()`),
not a server-assigned one. -/
theorem write_timestamp_sources (st : Store) (path docId newId newDocId : String)
    (data old : Doc)
    (email role fn ln ph uid : String) (now : Nat) (ad : Option Doc)
    (hold : st.lookup path docId = some old)
    (hnone : st.lookup path newDocId = none)
    (had : hasKey (ad.getD []) "createdAt" = false) :
    (∃ st2, addDocument true st path newId data = (Except.ok (newId, st2), 1) ∧
        st2.lookup path newId = some (withCreatedAt data) ∧
        getField (withCreatedAt data) "createdAt" = some Value.serverTimestamp) ∧
    (∃ st3, setDocument true st path docId data = (Except.ok st3, 1) ∧
        st3.lookup path docId = some (old ++ withUpdatedAt data) ∧
        getField (old ++ withUpdatedAt data) "updatedAt" = some Value.serverTimestamp) ∧
    (∃ st5, setDocument true st path newDocId data = (Except.ok st5, 1) ∧
        st5.lookup path newDocId = some (withUpdatedAt data) ∧
        getField (withUpdatedAt data) "updatedAt" = some Value.serverTimestamp) ∧
    (∃ st4, updateDocument true st path docId data = (Except.ok st4, 1) ∧
        st4.lookup path docId = some (old ++ withUpdatedAt data) ∧
        getField (old ++ withUpdatedAt data) "updatedAt" = some Value.serverTimestamp) ∧
    getField (profileData email role fn ln ph now uid ad) "createdAt"
      = some (Value.clientDate now) := by
  refine ⟨⟨st.put path newId (withCreatedAt data), ?_, ?_, ?_⟩,
          ⟨st.put path docId (old ++ withUpdatedAt data), ?_, ?_, ?_⟩,
          ⟨st.put path newDocId (withUpdatedAt data), ?_, ?_, ?_⟩,
          ⟨st.put path docId (old ++ withUpdatedAt data), ?_, ?_, ?_⟩, ?_⟩
  · simp [addDocument]
  · exact Store.lookup_put_self st path newId _
  · exact getField_withCreatedAt data
  · simp [setDocument, hold]
  · exact Store.lookup_put_self st path docId _
  · rw [getField_append, getField_withUpdatedAt]
  · simp [setDocument, hnone]
  · exact Store.lookup_put_self st path newDocId _
  · exact getField_withUpdatedAt data
  · simp [updateDocument, hold]
  · exact Store.lookup_put_self st path docId _
  · rw [getField_append, getField_withUpdatedAt]
  · have hx : hasKey
        (if (role == "agent") && ad.isSome then ad.getD [] else []) "createdAt" = false := by
      cases hc : ((role == "agent") && ad.isSome) with
      | false => rfl
      | true => exact had
    rw [profileData, getField_append, getField_eq_none_of_not_hasKey hx]
    rfl

/-- Witness for the amended C5: concrete store, data and registration. -/
theorem write_timestamp_sources_witness :
    (∃ st2, addDocument true ⟨[(("c", "d1"), [("a", Value.str "x")])]⟩ "c" "n1"
            [("b", Value.str "y")] = (Except.ok ("n1", st2), 1) ∧
        st2.lookup "c" "n1" = some (withCreatedAt [("b", Value.str "y")]) ∧
        getField (withCreatedAt [("b", Value.str "y")]) "createdAt"
          = some Value.serverTimestamp) ∧
    (∃ st3, setDocument true ⟨[(("c", "d1"), [("a", Value.str "x")])]⟩ "c" "d1"
            [("b", Value.str "y")] = (Except.ok st3, 1) ∧
        st3.lookup "c" "d1"
          = some ([("a", Value.str "x")] ++ withUpdatedAt [("b", Value.str "y")]) ∧
        getField ([("a", Value.str "x")] ++ withUpdatedAt [("b", Value.str "y")]) "updatedAt"
          = some Value.serverTimestamp) ∧
    (∃ st5, setDocument true ⟨[(("c", "d1"), [("a", Value.str "x")])]⟩ "c" "d9"
            [("b", Value.str "y")] = (Except.ok st5, 1) ∧
        st5.lookup "c" "d9" = some (withUpdatedAt [("b", Value.str "y")]) ∧
        getField (withUpdatedAt [("b", Value.str "y")]) "updatedAt"
          = some Value.serverTimestamp) ∧
    (∃ st4, updateDocument true ⟨[(("c", "d1"), [("a", Value.str "x")])]⟩ "c" "d1"
            [("b", Value.str "y")] = (Except.ok st4, 1) ∧
        st4.lookup "c" "d1"
          = some ([("a", Value.str "x")] ++ withUpdatedAt [("b", Value.str "y")]) ∧
        getField ([("a", Value.str "x")] ++ withUpdatedAt [("b", Value.str "y")]) "updatedAt"
          = some Value.serverTimestamp) ∧
    getField (profileData "a@b.c" "renter" "Ada" "Lee" "070" 1700 "u1" none) "createdAt"
      = some (Value.clientDate 1700) :=
  write_timestamp_sources ⟨[(("c", "d1"), [("a", Value.str "x")])]⟩ "c" "d1" "n1" "d9"
    [("b", Value.str "y")] [("a", Value.str "x")] "a@b.c" "renter" "Ada" "Lee" "070" "u1"
    1700 none rfl rfl (by decide)

end Rentopia
